import Mathlib

/-!
Verification of the Vitomu clipboard-to-conversion orchestration layer:
a shallow embedding of `ConvertComponent` (convert.component.ts) and
`ConvertService` (convert.service.ts) together with theorems about the
state machine, the URL convertibility test and the conversion call.
-/

namespace Vitomu

/-- The `ConvertState` enumeration (services/convert/convert-state.ts).
Modelled from the spec: the enum file itself is not among the provided
sources; the spec lists exactly these six states. -/
inductive ConvertState where
  | WaitingForClipboardContent
  | HasValidClipboardContent
  | Converting
  | Successful
  | Failed
  | FFmpegNotFound
deriving DecidableEq, Repr

/-- Modelled from the spec: `Constants.youtubeLinks` (core/constants.ts is
not among the provided sources) is a fixed list of known video-link host
substrings. -/
def Constants.youtubeLinks : List String :=
  ["youtube.com", "youtu.be"]

/-- `listStartsWith l p` is true when `p` is an initial segment of `l`. -/
def listStartsWith : List Char → List Char → Bool
  | _, [] => true
  | [], _ :: _ => false
  | c :: t, p :: ps => c == p && listStartsWith t ps

/-- Substring containment on character lists: some suffix of `l` starts
with `sub`. This is the semantics of JavaScript's
`String.prototype.includes`, used by the source as `videoUrl.includes(x)`. -/
def listIncludes (l sub : List Char) : Bool :=
  match l with
  | [] => sub.isEmpty
  | _ :: t => listStartsWith l sub || listIncludes t sub

/-- JavaScript's `String.prototype.includes`: `includes s sub` is true when
`sub` occurs as a contiguous substring of `s`. -/
def includes (s sub : String) : Bool :=
  listIncludes s.data sub.data

/-- Modelled from the spec: `Strings.isNullOrWhiteSpace` (core/Strings.ts is
not among the provided sources) returns true when the string is blank, that
is, empty or consisting only of whitespace. A TypeScript `null`/`undefined`
value is represented by the empty string, which is also blank. -/
def Strings.isNullOrWhiteSpace (s : String) : Bool :=
  s.data.all Char.isWhitespace

/-- `ConvertService.isVideoUrlConvertible` (convert.service.ts, lines
92-98): a non-blank string is convertible when it contains one of the
known link substrings. -/
def isVideoUrlConvertible (videoUrl : String) : Bool :=
  if !(Strings.isNullOrWhiteSpace videoUrl) then
    Constants.youtubeLinks.any (fun x => includes videoUrl x)
  else
    false

example : isVideoUrlConvertible "https://www.youtube.com/watch?v=abc" = true := by decide
example : isVideoUrlConvertible "   " = false := by decide
example : isVideoUrlConvertible "hello" = false := by decide

/-- The mutable fields of `ConvertComponent` (convert.component.ts):
`_convertState`, `_progressPercent` and `_downloadUrl`. The getters and
setters of the component forward to these fields unchanged. -/
structure ComponentState where
  convertState : ConvertState
  progressPercent : Nat
  downloadUrl : String
deriving DecidableEq, Repr

/-- `ConvertComponent.resetState` (convert.component.ts, lines 122-126):
sets the state to `WaitingForClipboardContent`, the progress to 0 and
clears the download URL. -/
def resetState (_c : ComponentState) : ComponentState :=
  { convertState := ConvertState.WaitingForClipboardContent
    progressPercent := 0
    downloadUrl := "" }

/-- `ConvertComponent.handleClipboardContentChanged` (convert.component.ts,
lines 132-146): clipboard changes are only handled while waiting for or
having valid clipboard content; a convertible text moves to
`HasValidClipboardContent` with the text as download URL, any other text
resets the component. -/
def handleClipboardContentChanged (c : ComponentState) (clipboardText : String) :
    ComponentState :=
  if c.convertState ≠ ConvertState.WaitingForClipboardContent ∧
      c.convertState ≠ ConvertState.HasValidClipboardContent then
    c
  else if isVideoUrlConvertible clipboardText then
    { c with convertState := ConvertState.HasValidClipboardContent
             downloadUrl := clipboardText }
  else
    resetState c

/-- `ConvertComponent.handleConvertProgressChanged` (convert.component.ts,
lines 128-130): mirrors the progress percentage into the component. -/
def handleConvertProgressChanged (c : ComponentState) (progressPercent : Nat) :
    ComponentState :=
  { c with progressPercent := progressPercent }

/-- `ConvertComponent.checkPrerequisitesAsync` (convert.component.ts, lines
83-89), with the boolean outcome of `convert.checkPrerequisitesAsync()`
passed in as `ok`. -/
def checkPrerequisites (c : ComponentState) (ok : Bool) : ComponentState :=
  if ok then
    { c with convertState := ConvertState.WaitingForClipboardContent }
  else
    { c with convertState := ConvertState.FFmpegNotFound }

/-- The component as built by its constructor (convert.component.ts, lines
37-40), which calls `resetState`. -/
def initComponent : ComponentState :=
  { convertState := ConvertState.WaitingForClipboardContent
    progressPercent := 0
    downloadUrl := "" }

/-- The component together with its scheduling environment: current time in
milliseconds, the fire times of delayed `resetState` actions scheduled
through the `Delayer`, and whether `ngOnDestroy` has run. Modelled from the
spec: the `Delayer` (core/delayer.ts is not among the provided sources)
schedules an action to run once the given delay has elapsed, like
`setTimeout`; the source component never holds a handle to the scheduled
action. -/
structure Machine where
  comp : ComponentState
  now : Nat
  pending : List Nat
  destroyed : Bool
deriving DecidableEq, Repr

/-- `ConvertComponent.handleConvertStateChanged` (convert.component.ts,
lines 112-120): adopts the received state; on `Failed` or `Successful` it
additionally schedules one delayed `resetState` with a 3000 ms delay. -/
def handleConvertStateChanged (m : Machine) (convertState : ConvertState) : Machine :=
  let comp := { m.comp with convertState := convertState }
  if convertState = ConvertState.Failed ∨ convertState = ConvertState.Successful then
    { m with comp := comp, pending := m.pending ++ [m.now + 3000] }
  else
    { m with comp := comp }

/-- `ConvertComponent.ngOnDestroy` (convert.component.ts, lines 91-93):
only `this.subscription.unsubscribe()` runs, releasing the three event
subscriptions; nothing touches the `Delayer` or its scheduled actions. -/
def ngOnDestroy (m : Machine) : Machine :=
  { m with destroyed := true }

/-- Fires every scheduled `resetState` that is due at time `now`; each due
action runs `resetState` on the component. -/
def fireDue (c : ComponentState) (pending : List Nat) (now : Nat) :
    ComponentState × List Nat :=
  (if pending.any (fun t => decide (t ≤ now)) then resetState c else c,
   pending.filter (fun t => decide (now < t)))

/-- The external events driving the component: the three subscribed streams
(clipboard text, convert state, progress), the passage of time, and the
Angular teardown call. -/
inductive Event where
  | clipboard (text : String)
  | stateChanged (v : ConvertState)
  | progress (p : Nat)
  | elapse (d : Nat)
  | destroy
deriving DecidableEq, Repr

/-- One step of the machine. After `ngOnDestroy` the subscriptions are
released, so the three subscribed streams no longer reach the component;
the passage of time still fires scheduled `Delayer` actions, since nothing
cancels them. -/
def stepEvent (m : Machine) (e : Event) : Machine :=
  match e with
  | Event.clipboard text =>
      if m.destroyed then m
      else { m with comp := handleClipboardContentChanged m.comp text }
  | Event.stateChanged v =>
      if m.destroyed then m else handleConvertStateChanged m v
  | Event.progress p =>
      if m.destroyed then m
      else { m with comp := handleConvertProgressChanged m.comp p }
  | Event.elapse d =>
      let now := m.now + d
      let fired := fireDue m.comp m.pending now
      { m with comp := fired.1, pending := fired.2, now := now }
  | Event.destroy => ngOnDestroy m

/-- The machine right after `ngOnInit`: the constructor has reset the
component and the prerequisites check (outcome `ok`) has run. -/
def initMachine (ok : Bool) : Machine :=
  { comp := checkPrerequisites initComponent ok
    now := 0
    pending := []
    destroyed := false }

/-- Convert-state events are emitted by the service only while a conversion
runs: `Converting` at start, then `Successful` or `Failed`. Modelled from
the spec: the emitting service code is not among the provided sources. -/
def isConversionState (v : ConvertState) : Prop :=
  v = ConvertState.Converting ∨ v = ConvertState.Successful ∨ v = ConvertState.Failed

/-- The machines reachable from initialization under the events the
environment can actually deliver. -/
inductive Reachable : Machine → Prop where
  | init (ok : Bool) : Reachable (initMachine ok)
  | clipboard (m : Machine) (text : String) :
      Reachable m → Reachable (stepEvent m (Event.clipboard text))
  | stateChanged (m : Machine) (v : ConvertState) :
      Reachable m → isConversionState v → Reachable (stepEvent m (Event.stateChanged v))
  | progress (m : Machine) (p : Nat) :
      Reachable m → Reachable (stepEvent m (Event.progress p))
  | elapse (m : Machine) (d : Nat) :
      Reachable m → Reachable (stepEvent m (Event.elapse d))
  | destroy (m : Machine) :
      Reachable m → Reachable (stepEvent m Event.destroy)

/-- `runEvents m es` delivers the events of `es` to the machine in order. -/
def runEvents (m : Machine) (es : List Event) : Machine :=
  es.foldl stepEvent m

/-- True exactly for convert-state-changed events. These originate from a
user-triggered conversion, never automatically. -/
def isStateChangedEvent : Event → Bool
  | Event.stateChanged _ => true
  | _ => false

/-- `ConversionResult` (services/convert/conversion-result.ts): success
flag and converted file path. Modelled from the spec: the class file is not
among the provided sources; the service source reads exactly these two
members. -/
structure ConversionResult where
  isConversionSuccessful : Bool
  convertedFilePath : String
deriving DecidableEq, Repr

/-- The answers a `DependencyChecker` (external collaborator) gives to the
service: whether the dependency is on the system path, and the path of the
managed downloaded copy. -/
structure DependencyChecker where
  isDependencyInSystemPath : Bool
  pathOfDownloadedDependency : String
deriving DecidableEq, Repr

/-- The service-level fields `_lastConvertedFilePath` and
`_lastConvertedFileName` of `ConvertService` (convert.service.ts, lines
24-25). -/
structure ConvertServiceState where
  lastConvertedFilePath : String
  lastConvertedFileName : String
deriving DecidableEq, Repr

/-- The arguments `ConvertService.convertAsync` passes to the video
converter that we reason about (URL, output directory and the two path
overrides); format, bitrate and the progress callback are forwarded
unchanged and carry no logic. -/
structure ConverterArgs where
  videoUrl : String
  outputDirectory : String
  ffmpegPathOverride : String
  youtubeDlPathOverride : String
deriving DecidableEq, Repr

/-- `ConvertService.convertAsync` (convert.service.ts, lines 133-166).
`videoConverter` is the converter obtained from the factory, a function
from the passed arguments to the `ConversionResult` it reports (failure is
a result value, not an exception, so the embedding is a total function);
`getFileName` is the external `FileSystem.getFileName`. The directory
creation side effect has no bearing on the returned data. Returns the
conversion result, the updated service state and the arguments given to
the converter. -/
def convertAsync (svc : ConvertServiceState) (ffmpegChecker youtubeDlChecker : DependencyChecker)
    (outputDirectory : String) (videoConverter : ConverterArgs → ConversionResult)
    (getFileName : String → String) (videoUrl : String) :
    ConversionResult × ConvertServiceState × ConverterArgs :=
  let ffmpegPathOverride : String :=
    if ffmpegChecker.isDependencyInSystemPath then ""
    else ffmpegChecker.pathOfDownloadedDependency
  let youtubeDlPathOverride : String :=
    if youtubeDlChecker.isDependencyInSystemPath then ""
    else youtubeDlChecker.pathOfDownloadedDependency
  let args : ConverterArgs :=
    { videoUrl := videoUrl
      outputDirectory := outputDirectory
      ffmpegPathOverride := ffmpegPathOverride
      youtubeDlPathOverride := youtubeDlPathOverride }
  let conversionResult : ConversionResult := videoConverter args
  let newSvc : ConvertServiceState :=
    if conversionResult.isConversionSuccessful then
      { lastConvertedFilePath := conversionResult.convertedFilePath
        lastConvertedFileName := getFileName conversionResult.convertedFilePath }
    else
      svc
  (conversionResult, newSvc, args)

/-- C1: for every clipboard-change event received while `convertState` is
`WaitingForClipboardContent` or `HasValidClipboardContent`, a convertible
clipboard text yields `HasValidClipboardContent` with `downloadUrl` equal
to the text, and a non-convertible text yields
`WaitingForClipboardContent` with `downloadUrl` cleared to the empty
string. -/
theorem C1_clipboard_transition (c : ComponentState) (text : String)
    (h : c.convertState = ConvertState.WaitingForClipboardContent ∨
         c.convertState = ConvertState.HasValidClipboardContent) :
    (isVideoUrlConvertible text = true →
      (handleClipboardContentChanged c text).convertState
          = ConvertState.HasValidClipboardContent ∧
      (handleClipboardContentChanged c text).downloadUrl = text) ∧
    (isVideoUrlConvertible text = false →
      (handleClipboardContentChanged c text).convertState
          = ConvertState.WaitingForClipboardContent ∧
      (handleClipboardContentChanged c text).downloadUrl = "") := by
  have hguard : ¬(c.convertState ≠ ConvertState.WaitingForClipboardContent ∧
      c.convertState ≠ ConvertState.HasValidClipboardContent) := by
    rcases h with h | h <;> simp [h]
  constructor
  · intro hc
    simp [handleClipboardContentChanged, hguard, hc]
  · intro hc
    simp [handleClipboardContentChanged, hguard, hc, resetState]

/-- Witness for C1 at a concrete convertible input. -/
theorem C1_clipboard_transition_witness :
    (handleClipboardContentChanged initComponent "https://youtu.be/x").convertState
        = ConvertState.HasValidClipboardContent ∧
    (handleClipboardContentChanged initComponent "https://youtu.be/x").downloadUrl
        = "https://youtu.be/x" :=
  (C1_clipboard_transition initComponent "https://youtu.be/x" (Or.inl rfl)).1 (by decide)

/-- C2: `isVideoUrlConvertible s` is true exactly when `s` is not blank and
contains at least one of the fixed known link substrings
(`Constants.youtubeLinks`). The embedding is a total pure function, so the
test has no side effects. -/
theorem C2_isVideoUrlConvertible_iff (s : String) :
    isVideoUrlConvertible s = true ↔
      Strings.isNullOrWhiteSpace s = false ∧
      ∃ x ∈ Constants.youtubeLinks, includes s x = true := by
  unfold isVideoUrlConvertible
  cases h : Strings.isNullOrWhiteSpace s <;> simp [h, List.any_eq_true]

/-- C3: a clipboard-change event received while `convertState` is neither
`WaitingForClipboardContent` nor `HasValidClipboardContent` leaves the
component completely unchanged, in particular `convertState` and
`downloadUrl`. -/
theorem C3_clipboard_ignored (c : ComponentState) (text : String)
    (h1 : c.convertState ≠ ConvertState.WaitingForClipboardContent)
    (h2 : c.convertState ≠ ConvertState.HasValidClipboardContent) :
    handleClipboardContentChanged c text = c := by
  simp [handleClipboardContentChanged, h1, h2]

/-- Witness for C3: a clipboard change during `Converting` is ignored. -/
theorem C3_clipboard_ignored_witness :
    handleClipboardContentChanged
        { convertState := ConvertState.Converting
          progressPercent := 50
          downloadUrl := "https://youtu.be/x" } "https://youtu.be/y"
      = { convertState := ConvertState.Converting
          progressPercent := 50
          downloadUrl := "https://youtu.be/x" } :=
  C3_clipboard_ignored _ "https://youtu.be/y" (by decide) (by decide)

/-- C4: handling a convert-state-changed event with value `Successful` or
`Failed` schedules exactly one delayed reset with a fixed 3000 ms delay;
before the delay elapses the component is untouched and the action stays
pending; once the delay elapses, `convertState` becomes
`WaitingForClipboardContent`, `progressPercent` becomes 0 and `downloadUrl`
becomes the empty string. -/
theorem C4_terminal_state_schedules_reset (m : Machine) (v : ConvertState)
    (hd : m.destroyed = false) (hp : m.pending = [])
    (hv : v = ConvertState.Successful ∨ v = ConvertState.Failed) :
    (stepEvent m (Event.stateChanged v)).pending = m.pending ++ [m.now + 3000] ∧
    (∀ d : Nat, d < 3000 →
      (stepEvent (stepEvent m (Event.stateChanged v)) (Event.elapse d)).comp
          = (stepEvent m (Event.stateChanged v)).comp ∧
      (stepEvent (stepEvent m (Event.stateChanged v)) (Event.elapse d)).pending
          = [m.now + 3000]) ∧
    (stepEvent (stepEvent m (Event.stateChanged v)) (Event.elapse 3000)).comp
        = { convertState := ConvertState.WaitingForClipboardContent
            progressPercent := 0
            downloadUrl := "" } ∧
    (stepEvent (stepEvent m (Event.stateChanged v)) (Event.elapse 3000)).pending = [] := by
  rcases hv with rfl | rfl <;>
    refine ⟨?_, fun d hdlt => ⟨?_, ?_⟩, ?_, ?_⟩ <;>
      simp [stepEvent, handleConvertStateChanged, fireDue, resetState, hd, hp] <;>
      omega

/-- Witness for C4: from a freshly initialized machine, a `Successful`
event schedules one reset at time 3000; at time 2999 nothing has fired;
at time 3000 the component is reset. -/
theorem C4_terminal_state_schedules_reset_witness :
    (stepEvent (initMachine true) (Event.stateChanged ConvertState.Successful)).pending
        = (initMachine true).pending ++ [(initMachine true).now + 3000] ∧
    (stepEvent (stepEvent (initMachine true) (Event.stateChanged ConvertState.Successful))
        (Event.elapse 2999)).comp
      = (stepEvent (initMachine true) (Event.stateChanged ConvertState.Successful)).comp ∧
    (stepEvent (stepEvent (initMachine true) (Event.stateChanged ConvertState.Successful))
        (Event.elapse 3000)).comp
      = { convertState := ConvertState.WaitingForClipboardContent
          progressPercent := 0
          downloadUrl := "" } :=
  ⟨(C4_terminal_state_schedules_reset (initMachine true) ConvertState.Successful rfl rfl
      (Or.inl rfl)).1,
   ((C4_terminal_state_schedules_reset (initMachine true) ConvertState.Successful rfl rfl
      (Or.inl rfl)).2.1 2999 (by decide)).1,
   (C4_terminal_state_schedules_reset (initMachine true) ConvertState.Successful rfl rfl
      (Or.inl rfl)).2.2.1⟩

/-- A machine sitting in `FFmpegNotFound` with no pending delayed action
stays in `FFmpegNotFound` (with no pending action) under every event other
than a convert-state-changed event. -/
theorem stepEvent_preserves_ffmpegNotFound (m : Machine) (e : Event)
    (hs : m.comp.convertState = ConvertState.FFmpegNotFound)
    (hp : m.pending = [])
    (he : isStateChangedEvent e = false) :
    (stepEvent m e).comp.convertState = ConvertState.FFmpegNotFound ∧
    (stepEvent m e).pending = [] := by
  cases e with
  | clipboard text =>
      by_cases hd : m.destroyed
      · simp [stepEvent, hd, hs, hp]
      · simp only [stepEvent, hd, if_false]
        have hguard : m.comp.convertState ≠ ConvertState.WaitingForClipboardContent ∧
            m.comp.convertState ≠ ConvertState.HasValidClipboardContent := by
          simp [hs]
        simp [handleClipboardContentChanged, hguard, hs, hp]
  | stateChanged v => simp [isStateChangedEvent] at he
  | progress p =>
      by_cases hd : m.destroyed <;>
        simp [stepEvent, hd, handleConvertProgressChanged, hs, hp]
  | elapse d => simp [stepEvent, fireDue, hp, hs]
  | destroy => simp [stepEvent, ngOnDestroy, hs, hp]

/-- C5: a successful prerequisites check at initialization puts the
component in `WaitingForClipboardContent`; a failed check puts it in
`FFmpegNotFound`, where it remains under every sequence of events that
contains no convert-state-changed event (those only arise from a
user-triggered conversion): no event automatically rechecks the
prerequisites. -/
theorem C5_prerequisites_check (es : List Event)
    (hes : es.all (fun e => !isStateChangedEvent e) = true) :
    (initMachine true).comp.convertState = ConvertState.WaitingForClipboardContent ∧
    (runEvents (initMachine false) es).comp.convertState = ConvertState.FFmpegNotFound := by
  refine ⟨rfl, ?_⟩
  have key : ∀ (es : List Event) (m : Machine),
      m.comp.convertState = ConvertState.FFmpegNotFound → m.pending = [] →
      es.all (fun e => !isStateChangedEvent e) = true →
      (runEvents m es).comp.convertState = ConvertState.FFmpegNotFound ∧
      (runEvents m es).pending = [] := by
    intro es
    induction es with
    | nil => intro m hs hp _; exact ⟨hs, hp⟩
    | cons e t ih =>
        intro m hs hp hall
        have hall' : isStateChangedEvent e = false ∧
            t.all (fun e => !isStateChangedEvent e) = true := by
          simpa using hall
        have step := stepEvent_preserves_ffmpegNotFound m e hs hp hall'.1
        exact ih (stepEvent m e) step.1 step.2 hall'.2
  exact (key es (initMachine false) rfl rfl hes).1

/-- Witness for C5: after a failed check, a clipboard change, the passage
of 9999 ms, a progress report and teardown all leave the component in
`FFmpegNotFound`. -/
theorem C5_prerequisites_check_witness :
    (initMachine true).comp.convertState = ConvertState.WaitingForClipboardContent ∧
    (runEvents (initMachine false)
        [Event.clipboard "https://www.youtube.com/watch?v=a", Event.elapse 9999,
         Event.progress 5, Event.destroy]).comp.convertState
      = ConvertState.FFmpegNotFound :=
  C5_prerequisites_check
    [Event.clipboard "https://www.youtube.com/watch?v=a", Event.elapse 9999,
     Event.progress 5, Event.destroy] (by decide)

/-- C6: in every reachable machine, `downloadUrl` is non-empty only when
`convertState` is `HasValidClipboardContent` or one of the conversion
states (`Converting`, `Successful`, `Failed`); and every reset clears
`downloadUrl` to the empty string. -/
theorem C6_downloadUrl_invariant :
    (∀ c : ComponentState, (resetState c).downloadUrl = "") ∧
    (∀ m : Machine, Reachable m → m.comp.downloadUrl ≠ "" →
      m.comp.convertState = ConvertState.HasValidClipboardContent ∨
      m.comp.convertState = ConvertState.Converting ∨
      m.comp.convertState = ConvertState.Successful ∨
      m.comp.convertState = ConvertState.Failed) := by
  refine ⟨fun _ => rfl, ?_⟩
  intro m hm
  induction hm with
  | init ok =>
      intro h
      exact absurd (by cases ok <;> rfl) h
  | clipboard m text hm ih =>
      intro h
      cases hd : m.destroyed with
      | true => simp [stepEvent, hd] at h ⊢; exact ih h
      | false =>
          by_cases hg : m.comp.convertState ≠ ConvertState.WaitingForClipboardContent ∧
              m.comp.convertState ≠ ConvertState.HasValidClipboardContent
          · have hstep : stepEvent m (Event.clipboard text) = m := by
              simp [stepEvent, hd, handleClipboardContentChanged, hg]
              exact hd ▸ rfl
            rw [hstep] at h ⊢
            exact ih h
          · cases hc : isVideoUrlConvertible text with
            | true =>
                left
                simp [stepEvent, hd, handleClipboardContentChanged, hg, hc]
            | false =>
                exfalso
                apply h
                simp [stepEvent, hd, handleClipboardContentChanged, hg, hc, resetState]
  | stateChanged m v hm hv ih =>
      intro h
      cases hd : m.destroyed with
      | true => simp [stepEvent, hd] at h ⊢; exact ih h
      | false =>
          rcases hv with rfl | rfl | rfl
          · right; left
            simp [stepEvent, hd, handleConvertStateChanged]
          · right; right; left
            simp [stepEvent, hd, handleConvertStateChanged]
          · right; right; right
            simp [stepEvent, hd, handleConvertStateChanged]
  | progress m p hm ih =>
      intro h
      cases hd : m.destroyed with
      | true => simp [stepEvent, hd] at h ⊢; exact ih h
      | false =>
          simp [stepEvent, hd, handleConvertProgressChanged] at h ⊢
          exact ih h
  | elapse m d hm ih =>
      intro h
      cases hf : m.pending.any (fun t => decide (t ≤ m.now + d)) with
      | true =>
          exfalso
          apply h
          simp [stepEvent, fireDue, hf, resetState]
      | false =>
          simp [stepEvent, fireDue, hf] at h ⊢
          exact ih h
  | destroy m hm ih =>
      intro h
      simp [stepEvent, ngOnDestroy] at h ⊢
      exact ih h

/-- Witness for C6 at the reachable machine obtained by a convertible
clipboard change right after initialization. -/
theorem C6_downloadUrl_invariant_witness :
    (stepEvent (initMachine true) (Event.clipboard "https://youtu.be/x")).comp.convertState
        = ConvertState.HasValidClipboardContent ∨
    (stepEvent (initMachine true) (Event.clipboard "https://youtu.be/x")).comp.convertState
        = ConvertState.Converting ∨
    (stepEvent (initMachine true) (Event.clipboard "https://youtu.be/x")).comp.convertState
        = ConvertState.Successful ∨
    (stepEvent (initMachine true) (Event.clipboard "https://youtu.be/x")).comp.convertState
        = ConvertState.Failed :=
  C6_downloadUrl_invariant.2 _
    (Reachable.clipboard (initMachine true) "https://youtu.be/x" (Reachable.init true))
    (by decide)

/-- C7: `convertAsync` always returns the `ConversionResult` produced by
the converter to its caller, whatever the success flag says (the embedding
is a total function, so a failed conversion is a returned value, never an
exception); when the success flag is true it records the converted file
path and its derived file name in the service-level fields. -/
theorem C7_convertAsync_returns_result (svc : ConvertServiceState)
    (ffmpegChecker youtubeDlChecker : DependencyChecker) (outputDirectory : String)
    (videoConverter : ConverterArgs → ConversionResult) (getFileName : String → String)
    (videoUrl : String) :
    (convertAsync svc ffmpegChecker youtubeDlChecker outputDirectory videoConverter
        getFileName videoUrl).1
      = videoConverter (convertAsync svc ffmpegChecker youtubeDlChecker outputDirectory
        videoConverter getFileName videoUrl).2.2 ∧
    ((convertAsync svc ffmpegChecker youtubeDlChecker outputDirectory videoConverter
        getFileName videoUrl).1.isConversionSuccessful = true →
      (convertAsync svc ffmpegChecker youtubeDlChecker outputDirectory videoConverter
          getFileName videoUrl).2.1.lastConvertedFilePath
        = (convertAsync svc ffmpegChecker youtubeDlChecker outputDirectory videoConverter
          getFileName videoUrl).1.convertedFilePath ∧
      (convertAsync svc ffmpegChecker youtubeDlChecker outputDirectory videoConverter
          getFileName videoUrl).2.1.lastConvertedFileName
        = getFileName (convertAsync svc ffmpegChecker youtubeDlChecker outputDirectory
          videoConverter getFileName videoUrl).1.convertedFilePath) := by
  refine ⟨rfl, fun h => ?_⟩
  unfold convertAsync at h ⊢
  simp only at h ⊢
  simp [h]

/-- Witness for C7: a successful conversion records path and file name. -/
theorem C7_convertAsync_returns_result_witness :
    (convertAsync { lastConvertedFilePath := "old", lastConvertedFileName := "oldName" }
        { isDependencyInSystemPath := true, pathOfDownloadedDependency := "fp" }
        { isDependencyInSystemPath := false, pathOfDownloadedDependency := "yp" }
        "/out" (fun _ => { isConversionSuccessful := true, convertedFilePath := "/out/a.mp3" })
        (fun _ => "a.mp3") "u").2.1.lastConvertedFilePath = "/out/a.mp3" ∧
    (convertAsync { lastConvertedFilePath := "old", lastConvertedFileName := "oldName" }
        { isDependencyInSystemPath := true, pathOfDownloadedDependency := "fp" }
        { isDependencyInSystemPath := false, pathOfDownloadedDependency := "yp" }
        "/out" (fun _ => { isConversionSuccessful := true, convertedFilePath := "/out/a.mp3" })
        (fun _ => "a.mp3") "u").2.1.lastConvertedFileName = "a.mp3" :=
  (C7_convertAsync_returns_result
    { lastConvertedFilePath := "old", lastConvertedFileName := "oldName" }
    { isDependencyInSystemPath := true, pathOfDownloadedDependency := "fp" }
    { isDependencyInSystemPath := false, pathOfDownloadedDependency := "yp" }
    "/out" (fun _ => { isConversionSuccessful := true, convertedFilePath := "/out/a.mp3" })
    (fun _ => "a.mp3") "u").2 rfl

/-- C8: for each dependency, the path override handed to the converter is
the empty string when the dependency is on the system path, and otherwise
the path of the downloaded copy reported by the dependency checker. -/
theorem C8_path_overrides (svc : ConvertServiceState)
    (ffmpegChecker youtubeDlChecker : DependencyChecker) (outputDirectory : String)
    (videoConverter : ConverterArgs → ConversionResult) (getFileName : String → String)
    (videoUrl : String) :
    (convertAsync svc ffmpegChecker youtubeDlChecker outputDirectory videoConverter
        getFileName videoUrl).2.2.ffmpegPathOverride
      = (if ffmpegChecker.isDependencyInSystemPath then ""
         else ffmpegChecker.pathOfDownloadedDependency) ∧
    (convertAsync svc ffmpegChecker youtubeDlChecker outputDirectory videoConverter
        getFileName videoUrl).2.2.youtubeDlPathOverride
      = (if youtubeDlChecker.isDependencyInSystemPath then ""
         else youtubeDlChecker.pathOfDownloadedDependency) :=
  ⟨rfl, rfl⟩

/-- C10: when the conversion result's success flag is false, the
service-level fields `lastConvertedFilePath` and `lastConvertedFileName`
keep their values from before the call. -/
theorem C10_failure_preserves_lastConverted (svc : ConvertServiceState)
    (ffmpegChecker youtubeDlChecker : DependencyChecker) (outputDirectory : String)
    (videoConverter : ConverterArgs → ConversionResult) (getFileName : String → String)
    (videoUrl : String)
    (h : (convertAsync svc ffmpegChecker youtubeDlChecker outputDirectory videoConverter
        getFileName videoUrl).1.isConversionSuccessful = false) :
    (convertAsync svc ffmpegChecker youtubeDlChecker outputDirectory videoConverter
        getFileName videoUrl).2.1 = svc := by
  unfold convertAsync at h ⊢
  simp only at h ⊢
  simp [h]

/-- Witness for C10: a failing converter leaves the recorded references
untouched. -/
theorem C10_failure_preserves_lastConverted_witness :
    (convertAsync { lastConvertedFilePath := "old", lastConvertedFileName := "oldName" }
        { isDependencyInSystemPath := true, pathOfDownloadedDependency := "fp" }
        { isDependencyInSystemPath := true, pathOfDownloadedDependency := "yp" }
        "/out" (fun _ => { isConversionSuccessful := false, convertedFilePath := "x" })
        (fun s => s) "u").2.1
      = { lastConvertedFilePath := "old", lastConvertedFileName := "oldName" } :=
  C10_failure_preserves_lastConverted
    { lastConvertedFilePath := "old", lastConvertedFileName := "oldName" }
    { isDependencyInSystemPath := true, pathOfDownloadedDependency := "fp" }
    { isDependencyInSystemPath := true, pathOfDownloadedDependency := "yp" }
    "/out" (fun _ => { isConversionSuccessful := false, convertedFilePath := "x" })
    (fun s => s) "u" rfl

/-- C9 counterexample: `ngOnDestroy` does not cancel a pending delayed
reset. From a fresh machine, a `Successful` event schedules the reset,
teardown happens, and when the 3000 ms delay elapses the component is
still mutated: the claim that no state mutation occurs after teardown is
false. -/
theorem C9_destroy_cancels_reset_counterexample :
    (stepEvent (stepEvent (stepEvent (initMachine true)
        (Event.stateChanged ConvertState.Successful)) Event.destroy)
        (Event.elapse 3000)).destroyed = true ∧
    (stepEvent (stepEvent (stepEvent (initMachine true)
        (Event.stateChanged ConvertState.Successful)) Event.destroy)
        (Event.elapse 3000)).comp
      ≠ (stepEvent (stepEvent (initMachine true)
        (Event.stateChanged ConvertState.Successful)) Event.destroy).comp := by
  decide

/-- C9 as amended: `ngOnDestroy` releases the event subscriptions but does
not cancel the pending delayed reset; the scheduled `resetState` still
runs when its delay elapses, even after teardown. -/
theorem C9_destroy_does_not_cancel_reset (m : Machine) (d : Nat)
    (hfire : m.pending.any (fun t => decide (t ≤ m.now + d)) = true) :
    (stepEvent m Event.destroy).pending = m.pending ∧
    (stepEvent m Event.destroy).comp = m.comp ∧
    (stepEvent m Event.destroy).destroyed = true ∧
    (stepEvent (stepEvent m Event.destroy) (Event.elapse d)).comp = resetState m.comp := by
  refine ⟨rfl, rfl, rfl, ?_⟩
  simp [stepEvent, ngOnDestroy, fireDue, hfire]

/-- Witness for the amended C9: the reset scheduled by a `Successful`
event still fires 3000 ms later although the component was torn down in
between. -/
theorem C9_destroy_does_not_cancel_reset_witness :
    (stepEvent (stepEvent (stepEvent (initMachine true)
        (Event.stateChanged ConvertState.Successful)) Event.destroy)
        (Event.elapse 3000)).comp
      = resetState (stepEvent (initMachine true)
        (Event.stateChanged ConvertState.Successful)).comp :=
  (C9_destroy_does_not_cancel_reset
    (stepEvent (initMachine true) (Event.stateChanged ConvertState.Successful))
    3000 (by decide)).2.2.2

end Vitomu
